import Mathlib

/-!
Verification of the Roblox user-verifier decision logic (src/app_fixed.py).

The Python source is shallowly embedded: pure rule evaluators become Lean
functions, network calls are replaced by explicit oracles (a response per
request), Python `int` is `Int`, Python sets are modelled as lists up to
membership, and timestamps are modelled as seconds-since-epoch integers
(`timedelta.days` becomes flooring division by 86400).
-/

/-- Resolved configuration, mirroring the module-level config-derived
constants of `app_fixed.py` (lines 79-103).  Integer sets are modelled as
lists up to membership.  The two fields used as structural counts
(`OLDEST_BADGES_TO_CHECK`, `MAX_BADGE_PAGES`) are `Nat`; the thresholds
used only in comparisons stay `Int` as produced by `_get_int_cfg`. -/
structure Config where
  FRIENDLY_OWNER_IDS : List Int
  BA_UK_GROUP_IDS : List Int
  BLACKLISTED_GROUP_IDS : List Int
  BA_BADGE_IDS : List Int
  IFD_BLACKLIST_IDS : List Int
  BA_BLACKLIST_IDS : List Int
  NSFW_WORDS : List String
  BA_MEMBER_IMPERSONATION_LIST : List String
  MIN_ACCOUNT_AGE_DAYS : Int
  MIN_FRIEND_COUNT : Int
  MIN_NON_BA_GROUP_COUNT : Int
  MIN_BADGE_COUNT : Int
  OLDEST_BADGES_TO_CHECK : Nat
  USERNAME_DIGIT_THRESHOLD : Int
  MAX_BADGE_PAGES : Nat

/-- The configuration obtained from an empty/missing `config.json`:
every set is empty and every threshold is its hardcoded default
(source lines 96-102). -/
def defaultConfig : Config :=
  { FRIENDLY_OWNER_IDS := []
    BA_UK_GROUP_IDS := []
    BLACKLISTED_GROUP_IDS := []
    BA_BADGE_IDS := []
    IFD_BLACKLIST_IDS := []
    BA_BLACKLIST_IDS := []
    NSFW_WORDS := []
    BA_MEMBER_IMPERSONATION_LIST := []
    MIN_ACCOUNT_AGE_DAYS := 60
    MIN_FRIEND_COUNT := 30
    MIN_NON_BA_GROUP_COUNT := 13
    MIN_BADGE_COUNT := 300
    OLDEST_BADGES_TO_CHECK := 90
    USERNAME_DIGIT_THRESHOLD := 4
    MAX_BADGE_PAGES := 10 }

/-- Python `str.lower()` (ASCII fragment, which is all the checks use). -/
def pyLower (s : String) : String :=
  String.mk (s.data.map Char.toLower)

/-- All suffixes of a list, longest first, ending with `[]`
(used to express Python substring containment `needle in hay`). -/
def listTails : List Char → List (List Char)
  | [] => [[]]
  | c :: cs => (c :: cs) :: listTails cs

/-- Python `needle in hay` on strings, as lists of characters. -/
def listContainsSub (needle hay : List Char) : Bool :=
  (listTails hay).any fun t => needle.isPrefixOf t

lemma listContainsSub_of_isPrefixOf (needle hay : List Char)
    (h : needle.isPrefixOf hay = true) : listContainsSub needle hay = true := by
  cases hay with
  | nil => simp [listContainsSub, listTails, h]
  | cons c cs =>
    unfold listContainsSub listTails
    rw [List.any_cons, h, Bool.true_or]

/-- The `created` field of a Roblox user record, as seen by
`check_account_age`: absent/empty, present but rejected by
`datetime.fromisoformat`, or parsed to a UTC instant
(modelled as seconds since the epoch). -/
inductive CreatedField
  | missing
  | unparseable (raw : String)
  | parsed (epochSeconds : Int)
deriving DecidableEq

/-- The fields of the fetched user record that the logic reads. -/
structure UserInfo where
  created : CreatedField
  name : String
deriving DecidableEq

/-- `check_account_age` (source lines 248-271).  `now` is the current UTC
instant in epoch seconds; `timedelta.days` is flooring division. -/
def check_account_age (cfg : Config) (now : Int) (user_info : UserInfo) :
    Bool × String :=
  match user_info.created with
  | CreatedField.missing =>
    (false, "Created date not available. Manual review required.")
  | CreatedField.unparseable raw =>
    (false, "Could not parse creation date: " ++ raw)
  | CreatedField.parsed t =>
    let days_old := (now - t).fdiv 86400
    if days_old < cfg.MIN_ACCOUNT_AGE_DAYS then
      (true, "Account is " ++ toString days_old ++ " days old (under " ++
        toString cfg.MIN_ACCOUNT_AGE_DAYS ++ ").")
    else
      (false, "Account is " ++ toString days_old ++ " days old.")

/-- A raw configuration scalar as Python sees it: either coercible by
`int(...)` (ints, bools, floats, numeric strings — modelled by the integer
it coerces to) or not. -/
inductive RawElem
  | coercible (n : Int)
  | junk
deriving DecidableEq

/-- A raw configuration value: Python `None`, a scalar, or a
list/tuple/set of scalars. -/
inductive RawVal
  | pynone
  | scalar (e : RawElem)
  | coll (elems : List RawElem)
deriving DecidableEq

/-- `_to_int_set` (source lines 46-62): collect `int(v)` for each element,
silently dropping elements that do not coerce.  The Python set is modelled
as the list of retained values (membership is what the checks use). -/
def _to_int_set (value : RawVal) (name : String) : List Int :=
  match value with
  | RawVal.pynone => []
  | RawVal.coll elems =>
    elems.foldr
      (fun e out =>
        match e with
        | RawElem.coercible n => n :: out
        | RawElem.junk => out) []
  | RawVal.scalar e =>
    match e with
    | RawElem.coercible n => [n]
    | RawElem.junk => []

/-- `_get_int_cfg` (source lines 89-94): `config.get(key, default)`
followed by `int(...)`, falling back to the default on any failure.
`lookup` is the result of `config.get`: `none` when the key is missing. -/
def _get_int_cfg (lookup : Option RawElem) (default : Int) : Int :=
  match lookup with
  | none => default
  | some (RawElem.coercible n) => n
  | some RawElem.junk => default

/-- **C7.**  The configuration resolver is total and fully defaulted: a
missing or non-coercible scalar resolves to the hardcoded default, and in
integer-set fields non-coercible elements are dropped while coercible
elements are retained. -/
theorem claim_C7_config_resolution (d n : Int) (xs : List RawElem) (nm : String) :
    _get_int_cfg none d = d
    ∧ _get_int_cfg (some RawElem.junk) d = d
    ∧ _get_int_cfg (some (RawElem.coercible n)) d = n
    ∧ (n ∈ _to_int_set (RawVal.coll xs) nm ↔ RawElem.coercible n ∈ xs)
    ∧ _to_int_set RawVal.pynone nm = []
    ∧ _to_int_set (RawVal.scalar RawElem.junk) nm = [] := by
  refine ⟨rfl, rfl, rfl, ?_, rfl, rfl⟩
  induction xs with
  | nil => simp [_to_int_set]
  | cons e rest ih =>
    cases e with
    | coercible m =>
      simp only [_to_int_set, List.foldr_cons] at ih ⊢
      rw [List.mem_cons, List.mem_cons, ih]
      simp
    | junk =>
      simp only [_to_int_set, List.foldr_cons] at ih ⊢
      rw [ih, List.mem_cons]
      simp

/-- **C2.**  For a parseable creation timestamp, `check_account_age` returns
an instant dismissal exactly when the age in whole days is strictly below
`MIN_ACCOUNT_AGE_DAYS`; an account created exactly `MIN_ACCOUNT_AGE_DAYS`
days ago is not dismissed, and one created `MIN_ACCOUNT_AGE_DAYS - 1` days
ago is dismissed. -/
theorem claim_C2_account_age_boundary (cfg : Config) (now t : Int) (nm : String) :
    ((check_account_age cfg now ⟨CreatedField.parsed t, nm⟩).1 = true ↔
      (now - t).fdiv 86400 < cfg.MIN_ACCOUNT_AGE_DAYS)
    ∧ (check_account_age cfg now
        ⟨CreatedField.parsed (now - cfg.MIN_ACCOUNT_AGE_DAYS * 86400), nm⟩).1 = false
    ∧ (check_account_age cfg now
        ⟨CreatedField.parsed (now - (cfg.MIN_ACCOUNT_AGE_DAYS - 1) * 86400), nm⟩).1 = true := by
  have h86400 : (86400 : Int) ≠ 0 := by norm_num
  refine ⟨?_, ?_, ?_⟩
  · by_cases h : (now - t).fdiv 86400 < cfg.MIN_ACCOUNT_AGE_DAYS <;>
      simp [check_account_age, h]
  · have h1 : now - (now - cfg.MIN_ACCOUNT_AGE_DAYS * 86400) =
        cfg.MIN_ACCOUNT_AGE_DAYS * 86400 := by ring
    simp [check_account_age, h1, Int.mul_fdiv_cancel _ h86400]
  · have h1 : now - (now - (cfg.MIN_ACCOUNT_AGE_DAYS - 1) * 86400) =
        (cfg.MIN_ACCOUNT_AGE_DAYS - 1) * 86400 := by ring
    simp [check_account_age, h1, Int.mul_fdiv_cancel _ h86400]

/-- The step of the NSFW-word loop in `check_username` (source lines
286-288): `if word and word in username: dismissal = dismissal or msg`. -/
def nsfwStep (username : String) (d : Option String) (word : String) : Option String :=
  if !word.isEmpty && listContainsSub word.data username.data then
    match d with
    | some m => some m
    | none => some ( "Username contains offensive term: \x27" ++ word ++ "\x27.")
  else d

/-- `check_username` (source lines 273-293).  Returns the dismissal reason
(if any) and the list of soft-flag messages. -/
def check_username (cfg : Config) (user_info : UserInfo) : Option String × List String :=
  let username := pyLower user_info.name
  let flags : List String :=
    if listContainsSub ( "alt").data username.data then
      [ "Username contains \x27alt\x27."] else []
  let dismissal : Option String :=
    if username ∈ cfg.BA_MEMBER_IMPERSONATION_LIST then
      some ( "Username impersonates a BA member.") else none
  let dismissal := cfg.NSFW_WORDS.foldl (nsfwStep username) dismissal
  let digits := (username.data.filter Char.isDigit).length
  let flags :=
    if cfg.USERNAME_DIGIT_THRESHOLD ≤ (digits : Int) then
      flags ++ [ "Username contains " ++ toString digits ++ " digits (>= " ++
        toString cfg.USERNAME_DIGIT_THRESHOLD ++ ")."]
    else flags
  (dismissal, flags)

lemma nsfwFold_ne_none (username : String) (l : List String) (d : Option String)
    (h : l.foldl (nsfwStep username) d ≠ none) :
    d ≠ none ∨ ∃ w ∈ l, (!w.isEmpty && listContainsSub w.data username.data) = true := by
  induction l generalizing d with
  | nil => exact Or.inl h
  | cons w rest ih =>
    rcases ih (nsfwStep username d w) h with h1 | h1
    · unfold nsfwStep at h1
      by_cases hc : (!w.isEmpty && listContainsSub w.data username.data) = true
      · exact Or.inr ⟨w, List.mem_cons_self w rest, hc⟩
      · rw [if_neg hc] at h1
        exact Or.inl h1
    · rcases h1 with ⟨w2, hw2, hc2⟩
      exact Or.inr ⟨w2, List.mem_cons_of_mem w hw2, hc2⟩

/-- **C8.**  `check_username` compares case-insensitively; the
`alt`-substring and digit-count heuristics only produce soft flags (the
digit flag appearing exactly when the digit count reaches
`USERNAME_DIGIT_THRESHOLD`), never a dismissal — a dismissal requires an
impersonation-list or NSFW-word hit; and `"baAlt123"` with the default
digit threshold 4 is flagged for `alt` but not for digits. -/
theorem claim_C8_username_soft_flags (cfg : Config) (user_info : UserInfo) :
    ((check_username cfg user_info).1 ≠ none →
      pyLower user_info.name ∈ cfg.BA_MEMBER_IMPERSONATION_LIST ∨
      ∃ w ∈ cfg.NSFW_WORDS,
        (!w.isEmpty && listContainsSub w.data (pyLower user_info.name).data) = true)
    ∧ (check_username cfg user_info).2 =
        (if listContainsSub ( "alt").data (pyLower user_info.name).data then
          [ "Username contains \x27alt\x27."] else [])
        ++ (if cfg.USERNAME_DIGIT_THRESHOLD ≤
              (((pyLower user_info.name).data.filter Char.isDigit).length : Int) then
          [ "Username contains " ++
            toString ((pyLower user_info.name).data.filter Char.isDigit).length ++
            " digits (>= " ++ toString cfg.USERNAME_DIGIT_THRESHOLD ++ ")."] else [])
    ∧ check_username defaultConfig ⟨CreatedField.missing, "baAlt123"⟩ =
        (none, [ "Username contains \x27alt\x27."]) := by
  refine ⟨?_, ?_, by decide⟩
  · intro h
    unfold check_username at h
    simp only at h
    rcases nsfwFold_ne_none (pyLower user_info.name) cfg.NSFW_WORDS _ h with h1 | h1
    · by_cases hm : pyLower user_info.name ∈ cfg.BA_MEMBER_IMPERSONATION_LIST
      · exact Or.inl hm
      · rw [if_neg hm] at h1
        exact absurd rfl h1
    · exact Or.inr h1
  · by_cases hd : cfg.USERNAME_DIGIT_THRESHOLD ≤
        (((pyLower user_info.name).data.filter Char.isDigit).length : Int) <;>
      simp [check_username, hd]

/-- A test configuration with one NSFW word (for exercising the
dismissal branch of `check_username`). -/
def nsfwTestConfig : Config :=
  { defaultConfig with NSFW_WORDS := [ "bad"] }

theorem claim_C8_username_soft_flags_witness :
    pyLower "xXbadXx" ∈ nsfwTestConfig.BA_MEMBER_IMPERSONATION_LIST ∨
    ∃ w ∈ nsfwTestConfig.NSFW_WORDS,
      (!w.isEmpty && listContainsSub w.data (pyLower "xXbadXx").data) = true :=
  (claim_C8_username_soft_flags nsfwTestConfig
    ⟨CreatedField.missing, "xXbadXx"⟩).1 (by decide)

/-- One group-membership record as `check_blacklists` reads it: the group
id (already coerced; `none` when missing or non-coercible), the raw group
name, and the owner id (`none` when there is no owner dict or its
`userId` is missing/non-coercible). -/
structure GroupInfo where
  id : Option Int
  name : String
  ownerId : Option Int
deriving DecidableEq

/-- Python `x in s` for an optional int against an int set:
`None in s` is `False`. -/
def optMem (x : Option Int) (l : List Int) : Bool :=
  match x with
  | some n => l.contains n
  | none => false

/-- The dismissals contributed by one iteration of the group loop in
`check_blacklists` (source lines 355-377). -/
def groupDismissals (cfg : Config) (grp : GroupInfo) : List String :=
  let group_name := pyLower grp.name
  (if optMem grp.id cfg.BLACKLISTED_GROUP_IDS then
    [ "User is in a blacklisted group: " ++ grp.name ++ "."] else [])
  ++ (if listContainsSub ( "british army").data group_name.data
        && !optMem grp.id cfg.BA_UK_GROUP_IDS
        && !optMem grp.ownerId cfg.FRIENDLY_OWNER_IDS then
    [ "User is in another British Army group: " ++ grp.name ++ "."] else [])

/-- The group loop of `check_blacklists`; a `none` entry models a list
item that is not a dict or has no `group` dict (skipped). -/
def groupLoopDismissals (cfg : Config) : List (Option GroupInfo) → List String
  | [] => []
  | item :: rest =>
    (match item with
     | some grp => groupDismissals cfg grp
     | none => []) ++ groupLoopDismissals cfg rest

/-- `check_blacklists` (source lines 348-378). -/
def check_blacklists (cfg : Config) (user_id : Int)
    (groups : List (Option GroupInfo)) (ifd_blacklist : List Int) : List String :=
  (if ifd_blacklist.contains user_id then
    [ "User is on the IFD Blacklist."] else [])
  ++ (if cfg.BA_BLACKLIST_IDS.contains user_id then
    [ "User is on the BA Blacklist."] else [])
  ++ groupLoopDismissals cfg groups

lemma blacklisted_msg_ne_lookalike_msg (n1 n2 : String) :
    ( "User is in a blacklisted group: " ++ n1 ++ ".") ≠
    ( "User is in another British Army group: " ++ n2 ++ ".") := by
  intro h
  have hd : ( "User is in a blacklisted group: ").data ++ n1.data ++ ( ".").data =
      ( "User is in another British Army group: ").data ++ n2.data ++ ( ".").data :=
    congrArg String.data h
  have h12 : (( "User is in a blacklisted group: ").data ++ n1.data ++ ( ".").data)[12]? =
      (( "User is in another British Army group: ").data ++ n2.data ++ ( ".").data)[12]? :=
    congrArg (fun l => l[12]?) hd
  have a1 : (( "User is in a blacklisted group: ").data).length = 32 := rfl
  have a2 : (( "User is in another British Army group: ").data).length = 39 := rfl
  have b1 : 12 < (( "User is in a blacklisted group: ").data ++ n1.data).length := by
    rw [List.length_append, a1]; omega
  have b2 : 12 < (( "User is in another British Army group: ").data ++ n2.data).length := by
    rw [List.length_append, a2]; omega
  rw [List.getElem?_append_left b1, List.getElem?_append_left b2] at h12
  rw [List.getElem?_append_left (by decide), List.getElem?_append_left (by decide)] at h12
  exact absurd h12 (by decide)

lemma mem_groupLoopDismissals (cfg : Config) (groups : List (Option GroupInfo))
    (grp : GroupInfo) (hmem : some grp ∈ groups) (m : String)
    (hm : m ∈ groupDismissals cfg grp) : m ∈ groupLoopDismissals cfg groups := by
  induction groups with
  | nil => cases hmem
  | cons item rest ih =>
    rcases List.mem_cons.mp hmem with h | h
    · subst h
      exact List.mem_append_left _ hm
    · exact List.mem_append_right _ (ih h)

/-- **C3.**  For a group whose name contains `"british army"`
case-insensitively, `check_blacklists` emits the look-alike-group dismissal
mentioning that group name exactly when the group id is outside
`BA_UK_GROUP_IDS` and its owner is outside `FRIENDLY_OWNER_IDS`; a
recognized group id or a friendly owner suppresses the look-alike
dismissal for that group. -/
theorem claim_C3_lookalike_groups (cfg : Config) (user_id : Int)
    (ifd : List Int) (groups : List (Option GroupInfo)) (grp : GroupInfo)
    (hmem : some grp ∈ groups)
    (hmark : listContainsSub ( "british army").data (pyLower grp.name).data = true) :
    ((optMem grp.id cfg.BA_UK_GROUP_IDS = false ∧
      optMem grp.ownerId cfg.FRIENDLY_OWNER_IDS = false) →
        ( "User is in another British Army group: " ++ grp.name ++ ".") ∈
          check_blacklists cfg user_id groups ifd)
    ∧ ((optMem grp.id cfg.BA_UK_GROUP_IDS = true ∨
        optMem grp.ownerId cfg.FRIENDLY_OWNER_IDS = true) →
        ( "User is in another British Army group: " ++ grp.name ++ ".") ∉
          groupDismissals cfg grp) := by
  constructor
  · rintro ⟨h1, h2⟩
    have hcond : (listContainsSub ( "british army").data (pyLower grp.name).data
        && !optMem grp.id cfg.BA_UK_GROUP_IDS
        && !optMem grp.ownerId cfg.FRIENDLY_OWNER_IDS) = true := by
      rw [hmark, h1, h2]; rfl
    have hin : ( "User is in another British Army group: " ++ grp.name ++ ".") ∈
        groupDismissals cfg grp := by
      simp only [groupDismissals]
      rw [if_pos hcond]
      exact List.mem_append_right _ (List.mem_singleton.mpr rfl)
    unfold check_blacklists
    exact List.mem_append_right _
      (mem_groupLoopDismissals cfg groups grp hmem _ hin)
  · intro hrec hin
    have hcond : (listContainsSub ( "british army").data (pyLower grp.name).data
        && !optMem grp.id cfg.BA_UK_GROUP_IDS
        && !optMem grp.ownerId cfg.FRIENDLY_OWNER_IDS) = false := by
      rcases hrec with h | h <;> rw [h] <;> simp
    simp only [groupDismissals] at hin
    rw [hcond] at hin
    rw [if_neg Bool.false_ne_true] at hin
    rw [List.append_nil] at hin
    by_cases hb : optMem grp.id cfg.BLACKLISTED_GROUP_IDS = true
    · rw [if_pos hb] at hin
      exact blacklisted_msg_ne_lookalike_msg grp.name grp.name
        (List.mem_singleton.mp hin).symm
    · rw [if_neg hb] at hin
      cases hin

/-- A test configuration with one recognized BA group id and one friendly
owner id (for exercising the look-alike-group branches). -/
def baTestConfig : Config :=
  { defaultConfig with
    BA_UK_GROUP_IDS := [7]
    FRIENDLY_OWNER_IDS := [5] }

theorem claim_C3_lookalike_groups_witness :
    (( "User is in another British Army group: " ++ "British Army Reserves" ++ ".") ∈
      check_blacklists baTestConfig 1 [some ⟨some 8, "British Army Reserves", some 6⟩] [])
    ∧ (( "User is in another British Army group: " ++ "British Army Reserves" ++ ".") ∉
      groupDismissals baTestConfig ⟨some 8, "British Army Reserves", some 5⟩) :=
  ⟨(claim_C3_lookalike_groups baTestConfig 1 []
      [some ⟨some 8, "British Army Reserves", some 6⟩]
      ⟨some 8, "British Army Reserves", some 6⟩ (by decide) (by decide)).1
      ⟨by decide, by decide⟩,
   (claim_C3_lookalike_groups baTestConfig 1 []
      [some ⟨some 8, "British Army Reserves", some 5⟩]
      ⟨some 8, "British Army Reserves", some 5⟩ (by decide) (by decide)).2
      (Or.inr (by decide))⟩

/-- One badge record as returned by the badge endpoints; only the `id`
field is read by the logic (`none` models a missing or non-coercible id). -/
structure Badge where
  id : Option Int
deriving DecidableEq

/-- One response of the paginated badge endpoint: a data page with its
`nextPageCursor` (already `or ""`-coalesced), or any request failure. -/
inductive PageResp
  | ok (data : List Badge) (nextPageCursor : String)
  | err
deriving DecidableEq

/-- The `while` loop of `get_oldest_badges` (source lines 189-211).
`server` maps (request number, cursor sent) to the response; `fuel` is
`MAX_BADGE_PAGES - pages`, so `pages < MAX_BADGE_PAGES` is `0 < fuel`.
Returns the accumulated badges and the number of page requests issued. -/
def oldestLoop (server : Nat → String → PageResp) (total_limit : Nat) :
    Nat → List Badge → String → List String → Nat → List Badge × Nat
  | 0, badges, _, _, reqs => (badges, reqs)
  | fuel + 1, badges, cursor, seen, reqs =>
    if badges.length < total_limit then
      match server reqs cursor with
      | PageResp.err => (badges, reqs + 1)
      | PageResp.ok data next =>
        if data.isEmpty then (badges, reqs + 1)
        else if seen.contains next then (badges ++ data, reqs + 1)
        else if next.isEmpty then (badges ++ data, reqs + 1)
        else oldestLoop server total_limit fuel (badges ++ data) next (next :: seen) (reqs + 1)
    else (badges, reqs)

/-- `get_oldest_badges` (source lines 182-212): run the loop with the full
page budget, then truncate with `badges[:total_limit]`. -/
def get_oldest_badges (cfg : Config) (server : Nat → String → PageResp)
    (total_limit : Nat) : List Badge × Nat :=
  let r := oldestLoop server total_limit cfg.MAX_BADGE_PAGES [] "" [] 0
  (r.1.take total_limit, r.2)

/-- The `while` loop of `get_total_badge_count` (source lines 221-244);
note it checks the empty cursor before the seen-cursor cycle guard,
in the opposite order from `get_oldest_badges`. -/
def countLoop (server : Nat → String → PageResp) (pass_threshold : Int) :
    Nat → Nat → String → List String → Nat → Nat × Nat
  | 0, total, _, _, reqs => (total, reqs)
  | fuel + 1, total, cursor, seen, reqs =>
    match server reqs cursor with
    | PageResp.err => (total, reqs + 1)
    | PageResp.ok data next =>
      if data.isEmpty then (total, reqs + 1)
      else
        let total2 := total + data.length
        if pass_threshold ≤ (total2 : Int) then (total2, reqs + 1)
        else if next.isEmpty then (total2, reqs + 1)
        else if seen.contains next then (total2, reqs + 1)
        else countLoop server pass_threshold fuel total2 next (next :: seen) (reqs + 1)

/-- `get_total_badge_count` (source lines 214-245). -/
def get_total_badge_count (cfg : Config) (server : Nat → String → PageResp)
    (pass_threshold : Int) : Nat × Nat :=
  countLoop server pass_threshold cfg.MAX_BADGE_PAGES 0 "" [] 0

lemma oldestLoop_reqs_le (server : Nat → String → PageResp) (total_limit : Nat) :
    ∀ (fuel : Nat) (badges : List Badge) (cursor : String) (seen : List String) (reqs : Nat),
      (oldestLoop server total_limit fuel badges cursor seen reqs).2 ≤ reqs + fuel := by
  intro fuel
  induction fuel with
  | zero => intro badges cursor seen reqs; simp [oldestLoop]
  | succ n ih =>
    intro badges cursor seen reqs
    simp only [oldestLoop]
    by_cases h1 : badges.length < total_limit
    · rw [if_pos h1]
      cases hs : server reqs cursor with
      | err => simp
      | ok data next =>
        dsimp only
        by_cases h2 : data.isEmpty = true
        · rw [if_pos h2]; simp
        · rw [if_neg h2]
          by_cases h3 : seen.contains next = true
          · rw [if_pos h3]; simp
          · rw [if_neg h3]
            by_cases h4 : next.isEmpty = true
            · rw [if_pos h4]; simp
            · rw [if_neg h4]
              calc (oldestLoop server total_limit n (badges ++ data) next
                      (next :: seen) (reqs + 1)).2
                  ≤ (reqs + 1) + n := ih _ _ _ _
                _ ≤ reqs + (n + 1) := by omega
    · rw [if_neg h1]; simp

lemma countLoop_reqs_le (server : Nat → String → PageResp) (pass_threshold : Int) :
    ∀ (fuel : Nat) (total : Nat) (cursor : String) (seen : List String) (reqs : Nat),
      (countLoop server pass_threshold fuel total cursor seen reqs).2 ≤ reqs + fuel := by
  intro fuel
  induction fuel with
  | zero => intro total cursor seen reqs; simp [countLoop]
  | succ n ih =>
    intro total cursor seen reqs
    simp only [countLoop]
    cases hs : server reqs cursor with
    | err => simp
    | ok data next =>
      dsimp only
      by_cases h2 : data.isEmpty = true
      · rw [if_pos h2]; simp
      · rw [if_neg h2]
        by_cases h3 : pass_threshold ≤ ((total + data.length : Nat) : Int)
        · rw [if_pos h3]; simp
        · rw [if_neg h3]
          by_cases h4 : next.isEmpty = true
          · rw [if_pos h4]; simp
          · rw [if_neg h4]
            by_cases h5 : seen.contains next = true
            · rw [if_pos h5]; simp
            · rw [if_neg h5]
              calc (countLoop server pass_threshold n (total + data.length) next
                      (next :: seen) (reqs + 1)).2
                  ≤ (reqs + 1) + n := ih _ _ _ _
                _ ≤ reqs + (n + 1) := by omega

/-- **C5.**  Both paginated badge fetchers issue at most `MAX_BADGE_PAGES`
page requests for every sequence of server responses (in particular for a
server that always returns a non-empty page with a repeating cursor), and
a mid-loop request failure makes the loop return what was accumulated so
far instead of raising. -/
theorem claim_C5_pagination_bounded (cfg : Config) (server : Nat → String → PageResp)
    (total_limit : Nat) (pass_threshold : Int) :
    (get_oldest_badges cfg server total_limit).2 ≤ cfg.MAX_BADGE_PAGES
    ∧ (get_total_badge_count cfg server pass_threshold).2 ≤ cfg.MAX_BADGE_PAGES
    ∧ (∀ (fuel : Nat) (badges : List Badge) (cursor : String) (seen : List String) (reqs : Nat),
        server reqs cursor = PageResp.err →
        oldestLoop server total_limit (fuel + 1) badges cursor seen reqs =
          if badges.length < total_limit then (badges, reqs + 1) else (badges, reqs))
    ∧ (∀ (fuel : Nat) (total : Nat) (cursor : String) (seen : List String) (reqs : Nat),
        server reqs cursor = PageResp.err →
        countLoop server pass_threshold (fuel + 1) total cursor seen reqs = (total, reqs + 1)) := by
  refine ⟨?_, ?_, ?_, ?_⟩
  · have h := oldestLoop_reqs_le server total_limit cfg.MAX_BADGE_PAGES [] "" [] 0
    simpa [get_oldest_badges] using h
  · have h := countLoop_reqs_le server pass_threshold cfg.MAX_BADGE_PAGES 0 "" [] 0
    simpa [get_total_badge_count] using h
  · intro fuel badges cursor seen reqs h
    simp only [oldestLoop, h]
  · intro fuel total cursor seen reqs h
    simp only [countLoop, h]

theorem claim_C5_pagination_bounded_witness :
    (get_oldest_badges defaultConfig (fun _ _ => PageResp.ok [⟨some 1⟩] "again") 90).2 ≤
      defaultConfig.MAX_BADGE_PAGES
    ∧ countLoop (fun _ _ => PageResp.err) 300 1 0 "" [] 0 = (0, 1) :=
  ⟨(claim_C5_pagination_bounded defaultConfig
      (fun _ _ => PageResp.ok [⟨some 1⟩] "again") 90 300).1,
   (claim_C5_pagination_bounded defaultConfig (fun _ _ => PageResp.err) 90 300).2.2.2
      0 0 "" [] 0 rfl⟩

/-- **C10.**  `get_oldest_badges` never returns more than `total_limit`
badges, whatever the server responds. -/
theorem claim_C10_total_limit_respected (cfg : Config)
    (server : Nat → String → PageResp) (total_limit : Nat) :
    (get_oldest_badges cfg server total_limit).1.length ≤ total_limit := by
  unfold get_oldest_badges
  simp only [List.length_take]
  exact min_le_left _ _

/-- The responses of the user-specific endpoints that
`check_social_activity` queries: the friend count (`none` when the fetch
failed) and the badge endpoint in ascending and descending sort order. -/
structure SocialEnv where
  friendCount : Option Int
  badgesAsc : Nat → String → PageResp
  badgesDesc : Nat → String → PageResp

/-- The oldest-badges scan of `check_social_activity` (source lines
335-344): walk the fetched badges, skip missing/non-coercible ids, and on
the first id in `BA_BADGE_IDS` emit one flag and break. -/
def badgeScan (ba_badge_ids : List Int) : List Badge → List String
  | [] => []
  | badge :: rest =>
    match badge.id with
    | none => badgeScan ba_badge_ids rest
    | some bid =>
      if ba_badge_ids.contains bid then
        [ "BA-related badge found among oldest badges (ID: " ++ toString bid ++ ")."]
      else badgeScan ba_badge_ids rest

/-- The friend-count, group-count and badge-count red flags of
`check_social_activity` (source lines 300-331), in emission order. -/
def socialBaseFlags (cfg : Config) (env : SocialEnv)
    (groups : List (Option GroupInfo)) : List String :=
  (match env.friendCount with
   | none => [ "Could not verify friend count."]
   | some friend_count =>
     if friend_count < cfg.MIN_FRIEND_COUNT then
       [ "Fewer than " ++ toString cfg.MIN_FRIEND_COUNT ++ " friends (" ++
         toString friend_count ++ ")."]
     else [])
  ++ (let non_ba_group_count :=
        (groups.filter fun item =>
          match item with
          | some grp =>
            match grp.id with
            | some gid => !cfg.BA_UK_GROUP_IDS.contains gid
            | none => false
          | none => false).length
      if (non_ba_group_count : Int) < cfg.MIN_NON_BA_GROUP_COUNT then
        [ "Fewer than " ++ toString cfg.MIN_NON_BA_GROUP_COUNT ++ " non-BA groups (" ++
          toString non_ba_group_count ++ ")."]
      else [])
  ++ (let badge_count := (get_total_badge_count cfg env.badgesDesc cfg.MIN_BADGE_COUNT).1
      if (badge_count : Int) < cfg.MIN_BADGE_COUNT then
        [ "Fewer than " ++ toString cfg.MIN_BADGE_COUNT ++ " badges (" ++
          toString badge_count ++ " total)."]
      else [])

/-- `check_social_activity` (source lines 295-346).  Note line 334: the
oldest-badges fetch is capped at `min(OLDEST_BADGES_TO_CHECK, 100)`. -/
def check_social_activity (cfg : Config) (env : SocialEnv) (user_id : Int)
    (groups : List (Option GroupInfo)) : List String :=
  socialBaseFlags cfg env groups ++
    badgeScan cfg.BA_BADGE_IDS
      (get_oldest_badges cfg env.badgesAsc (min cfg.OLDEST_BADGES_TO_CHECK 100)).1

lemma badgeScan_first_match (ids : List Int) (l1 l2 : List Badge) (b : Badge) (bid : Int)
    (h1 : ∀ x ∈ l1, optMem x.id ids = false)
    (hb : b.id = some bid) (hbid : ids.contains bid = true) :
    badgeScan ids (l1 ++ b :: l2) =
      [ "BA-related badge found among oldest badges (ID: " ++ toString bid ++ ")."] := by
  induction l1 with
  | nil =>
    rw [List.nil_append]
    unfold badgeScan
    rw [hb]
    dsimp only
    rw [if_pos hbid]
  | cons x rest ih =>
    have hx : optMem x.id ids = false := h1 x (List.mem_cons_self x rest)
    have hrest : ∀ y ∈ rest, optMem y.id ids = false :=
      fun y hy => h1 y (List.mem_cons_of_mem x hy)
    rw [List.cons_append]
    unfold badgeScan
    cases hxid : x.id with
    | none =>
      dsimp only
      exact ih hrest
    | some xid =>
      dsimp only
      rw [hxid] at hx
      simp only [optMem] at hx
      rw [if_neg (by rw [hx]; exact Bool.false_ne_true)]
      exact ih hrest

/-- A configuration that asks for 150 oldest badges and disables the
other social thresholds, to isolate the badge scan. -/
def scanTestConfig : Config :=
  { defaultConfig with
    BA_BADGE_IDS := [999]
    OLDEST_BADGES_TO_CHECK := 150
    MIN_FRIEND_COUNT := 0
    MIN_NON_BA_GROUP_COUNT := 0
    MIN_BADGE_COUNT := 0 }

/-- An ascending-order badge server: 100 unremarkable badges on the first
page, then one page with the notable badge 999, then nothing. -/
def scanTestAsc : Nat → String → PageResp := fun reqs _ =>
  if reqs = 0 then PageResp.ok ((List.range 100).map fun i => ⟨some (i : Int)⟩) "c1"
  else if reqs = 1 then PageResp.ok [⟨some 999⟩] ""
  else PageResp.err

/-- The social-check environment for the badge-scan counterexample. -/
def scanTestEnv : SocialEnv :=
  { friendCount := some 5
    badgesAsc := scanTestAsc
    badgesDesc := fun _ _ => PageResp.err }

/-- **C9 (counterexample).**  With `OLDEST_BADGES_TO_CHECK = 150`, a
notable badge sits among the account's 150 oldest badges (and scanning
them would flag it), yet `check_social_activity` reports no flag at all:
line 334 fetches only `min(150, 100) = 100` badges, so the claim as
stated — the scan covers the `OLDEST_BADGES_TO_CHECK` oldest badges — is
false. -/
theorem claim_C9_scan_counterexample :
    ((get_oldest_badges scanTestConfig scanTestAsc
        scanTestConfig.OLDEST_BADGES_TO_CHECK).1.any
      fun b => optMem b.id scanTestConfig.BA_BADGE_IDS) = true
    ∧ badgeScan scanTestConfig.BA_BADGE_IDS
        (get_oldest_badges scanTestConfig scanTestAsc
          scanTestConfig.OLDEST_BADGES_TO_CHECK).1 ≠ []
    ∧ check_social_activity scanTestConfig scanTestEnv 1 [] = [] := by
  refine ⟨by decide, by decide, by decide⟩

/-- **C9 (amended).**  The social-activity check scans the account's
`min(OLDEST_BADGES_TO_CHECK, 100)` oldest badges, and on the first badge
whose id is in the notable-badge set it appends exactly one red flag and
stops scanning. -/
theorem claim_C9_badge_scan (cfg : Config) (env : SocialEnv) (user_id : Int)
    (groups : List (Option GroupInfo)) (l1 l2 : List Badge) (b : Badge) (bid : Int)
    (h1 : ∀ x ∈ l1, optMem x.id cfg.BA_BADGE_IDS = false)
    (hb : b.id = some bid) (hbid : cfg.BA_BADGE_IDS.contains bid = true) :
    check_social_activity cfg env user_id groups =
      socialBaseFlags cfg env groups ++
        badgeScan cfg.BA_BADGE_IDS
          (get_oldest_badges cfg env.badgesAsc (min cfg.OLDEST_BADGES_TO_CHECK 100)).1
    ∧ badgeScan cfg.BA_BADGE_IDS (l1 ++ b :: l2) =
        [ "BA-related badge found among oldest badges (ID: " ++ toString bid ++ ")."] :=
  ⟨rfl, badgeScan_first_match cfg.BA_BADGE_IDS l1 l2 b bid h1 hb hbid⟩

theorem claim_C9_badge_scan_witness :
    check_social_activity scanTestConfig scanTestEnv 1 [] =
      socialBaseFlags scanTestConfig scanTestEnv [] ++
        badgeScan scanTestConfig.BA_BADGE_IDS
          (get_oldest_badges scanTestConfig scanTestEnv.badgesAsc
            (min scanTestConfig.OLDEST_BADGES_TO_CHECK 100)).1
    ∧ badgeScan scanTestConfig.BA_BADGE_IDS [⟨some 1⟩, ⟨some 999⟩, ⟨none⟩] =
        [ "BA-related badge found among oldest badges (ID: " ++ toString (999 : Int) ++ ")."] :=
  claim_C9_badge_scan scanTestConfig scanTestEnv 1 [] [⟨some 1⟩] [⟨none⟩] ⟨some 999⟩ 999
    (by decide) rfl (by decide)

/-- What the orchestrator does with the account-age result (source lines
491-497): a dismissal goes to `instant_dismissals`; otherwise the message
is kept as an informational red flag exactly when it signals an
unparseable or unavailable creation date. -/
def ageOutcome (cfg : Config) (now : Int) (user_info : UserInfo) :
    List String × List String :=
  let r := check_account_age cfg now user_info
  if r.1 then ([r.2], [])
  else if listContainsSub ( "Could not parse").data r.2.data
      || listContainsSub ( "not available").data r.2.data then ([], [r.2])
  else ([], [])

/-- The final verdict rendered by the flow. -/
inductive Verdict
  | dismissed
  | verified
deriving DecidableEq

/-- The observable outcome of one verification run: the reported instant
dismissals, the reported red flags, whether the social-activity checks
executed, and the verdict. -/
structure RunResult where
  instant_dismissals : List String
  red_flags : List String
  social_ran : Bool
  verdict : Verdict
deriving DecidableEq

/-- `if dismissal_reason: instant_dismissals.append(dismissal_reason)`. -/
def optToList : Option String → List String
  | some s => [s]
  | none => []

/-- The module-level verification flow (source lines 486-540): gather
instant dismissals from the age, username and blacklist checks and red
flags from the age and username checks; when any instant dismissal exists,
report them together and stop (`st.stop()`) with a dismissal verdict;
otherwise run the social-activity checks and dismiss exactly when the
red-flag count reaches 2. -/
def runVerification (cfg : Config) (now : Int) (user_id : Int) (user_info : UserInfo)
    (groups : List (Option GroupInfo)) (temp_ifd : List Int) (env : SocialEnv) : RunResult :=
  let age := ageOutcome cfg now user_info
  let uname := check_username cfg user_info
  let instant_dismissals :=
    age.1 ++ optToList uname.1 ++ check_blacklists cfg user_id groups temp_ifd
  let red_flags := age.2 ++ uname.2
  if instant_dismissals.isEmpty then
    let red_flags2 := red_flags ++ check_social_activity cfg env user_id groups
    ⟨instant_dismissals, red_flags2, true,
      if 2 ≤ red_flags2.length then Verdict.dismissed else Verdict.verified⟩
  else
    ⟨instant_dismissals, red_flags, false, Verdict.dismissed⟩

/-- **C1.**  Any instant dismissal ends the run with a dismissal verdict,
the social checks never execute, and the age, username and blacklist
dismissal reasons are reported together; with no instant dismissal the
social checks run and the verdict is a dismissal exactly when the total
red-flag count is 2 or more. -/
theorem claim_C1_aggregation (cfg : Config) (now user_id : Int) (user_info : UserInfo)
    (groups : List (Option GroupInfo)) (temp_ifd : List Int) (env : SocialEnv) :
    ((runVerification cfg now user_id user_info groups temp_ifd env).instant_dismissals ≠ [] →
      (runVerification cfg now user_id user_info groups temp_ifd env).verdict = Verdict.dismissed
      ∧ (runVerification cfg now user_id user_info groups temp_ifd env).social_ran = false
      ∧ (runVerification cfg now user_id user_info groups temp_ifd env).instant_dismissals =
          (ageOutcome cfg now user_info).1 ++ optToList (check_username cfg user_info).1 ++
            check_blacklists cfg user_id groups temp_ifd)
    ∧ ((runVerification cfg now user_id user_info groups temp_ifd env).instant_dismissals = [] →
      (runVerification cfg now user_id user_info groups temp_ifd env).social_ran = true
      ∧ (runVerification cfg now user_id user_info groups temp_ifd env).red_flags =
          ((ageOutcome cfg now user_info).2 ++ (check_username cfg user_info).2) ++
            check_social_activity cfg env user_id groups
      ∧ ((runVerification cfg now user_id user_info groups temp_ifd env).verdict =
            Verdict.dismissed ↔
          2 ≤ (runVerification cfg now user_id user_info groups temp_ifd env).red_flags.length)) := by
  by_cases h : ((ageOutcome cfg now user_info).1 ++ optToList (check_username cfg user_info).1 ++
      check_blacklists cfg user_id groups temp_ifd).isEmpty = true
  · have hrun : runVerification cfg now user_id user_info groups temp_ifd env =
        ⟨(ageOutcome cfg now user_info).1 ++ optToList (check_username cfg user_info).1 ++
            check_blacklists cfg user_id groups temp_ifd,
          ((ageOutcome cfg now user_info).2 ++ (check_username cfg user_info).2) ++
            check_social_activity cfg env user_id groups,
          true,
          if 2 ≤ (((ageOutcome cfg now user_info).2 ++ (check_username cfg user_info).2) ++
              check_social_activity cfg env user_id groups).length then
            Verdict.dismissed
          else Verdict.verified⟩ := by
      simp only [runVerification]
      rw [if_pos h]
    rw [hrun]
    constructor
    · intro hne
      exact absurd (List.isEmpty_iff.mp h) hne
    · intro _
      refine ⟨rfl, rfl, ?_⟩
      by_cases h2 : 2 ≤ (((ageOutcome cfg now user_info).2 ++
          (check_username cfg user_info).2) ++
          check_social_activity cfg env user_id groups).length
      · simp [h2]
      · simp [h2]
  · have hrun : runVerification cfg now user_id user_info groups temp_ifd env =
        ⟨(ageOutcome cfg now user_info).1 ++ optToList (check_username cfg user_info).1 ++
            check_blacklists cfg user_id groups temp_ifd,
          (ageOutcome cfg now user_info).2 ++ (check_username cfg user_info).2,
          false, Verdict.dismissed⟩ := by
      simp only [runVerification]
      rw [if_neg h]
    rw [hrun]
    constructor
    · intro _
      exact ⟨rfl, rfl, rfl⟩
    · intro heq
      have heq2 : (ageOutcome cfg now user_info).1 ++
          optToList (check_username cfg user_info).1 ++
          check_blacklists cfg user_id groups temp_ifd = [] := heq
      rw [heq2] at h
      exact absurd rfl h

theorem claim_C1_aggregation_witness :
    (runVerification defaultConfig 0 1 ⟨CreatedField.parsed 0, "bob"⟩ [] []
        ⟨some 100, fun _ _ => PageResp.err, fun _ _ => PageResp.err⟩).verdict = Verdict.dismissed
    ∧ (runVerification defaultConfig 0 1 ⟨CreatedField.parsed 0, "bob"⟩ [] []
        ⟨some 100, fun _ _ => PageResp.err, fun _ _ => PageResp.err⟩).social_ran = false
    ∧ (runVerification defaultConfig 8640000 1 ⟨CreatedField.parsed 0, "bob"⟩ [] []
        ⟨some 100, fun _ _ => PageResp.err, fun _ _ => PageResp.err⟩).social_ran = true :=
  ⟨((claim_C1_aggregation defaultConfig 0 1 ⟨CreatedField.parsed 0, "bob"⟩ [] []
      ⟨some 100, fun _ _ => PageResp.err, fun _ _ => PageResp.err⟩).1 (by decide)).1,
   ((claim_C1_aggregation defaultConfig 0 1 ⟨CreatedField.parsed 0, "bob"⟩ [] []
      ⟨some 100, fun _ _ => PageResp.err, fun _ _ => PageResp.err⟩).1 (by decide)).2.1,
   ((claim_C1_aggregation defaultConfig 8640000 1 ⟨CreatedField.parsed 0, "bob"⟩ [] []
      ⟨some 100, fun _ _ => PageResp.err, fun _ _ => PageResp.err⟩).2 (by decide)).1⟩

/-- **C4.**  A missing or unparseable creation timestamp never yields an
account-age instant dismissal: the age check contributes nothing to the
instant dismissals and exactly one informational red flag. -/
theorem claim_C4_missing_or_unparseable_created (cfg : Config) (now : Int) (s nm : String)
    (user_id : Int) (groups : List (Option GroupInfo)) (ifd : List Int) (env : SocialEnv) :
    ageOutcome cfg now ⟨CreatedField.missing, nm⟩ =
      ([], [ "Created date not available. Manual review required."])
    ∧ ageOutcome cfg now ⟨CreatedField.unparseable s, nm⟩ =
      ([], [ "Could not parse creation date: " ++ s])
    ∧ (check_account_age cfg now ⟨CreatedField.missing, nm⟩).1 = false
    ∧ (check_account_age cfg now ⟨CreatedField.unparseable s, nm⟩).1 = false
    ∧ (runVerification cfg now user_id ⟨CreatedField.unparseable s, nm⟩ groups ifd
        env).instant_dismissals =
      optToList (check_username cfg ⟨CreatedField.unparseable s, nm⟩).1 ++
        check_blacklists cfg user_id groups ifd := by
  refine ⟨rfl, rfl, rfl, rfl, ?_⟩
  simp only [runVerification]
  split <;> rfl

/-- The result of `urlparse` on the input URL, plus whether the raw URL
string was non-empty (`if not sheet_csv_url: return ids`).  `hostname` is
`none` when the URL has no host; `urlparse` itself does not fail. -/
structure UrlParts where
  present : Bool
  scheme : String
  hostname : Option String
  path : String
deriving DecidableEq

/-- The outcome of the HTTP GET plus decode plus CSV tokenization for an
accepted URL: the parsed rows of cells, or any network/parse failure
(`decode(errors="replace")` and `csv.reader` themselves do not raise, and
the enclosing `try` folds every raised error into this case). -/
inductive NetResult
  | ok (rows : List (List String))
  | err
deriving DecidableEq

/-- Python `str.isdigit()` (ASCII fragment): non-empty and all digits. -/
def pyIsDigit (s : String) : Bool :=
  !s.isEmpty && s.data.all Char.isDigit

/-- `int(...)` on an all-digit string. -/
def digitStrToInt (s : String) : Int :=
  Int.ofNat (s.data.foldl (fun a c => a * 10 + (c.toNat - 48)) 0)

/-- `fetch_live_blacklist` (source lines 381-419).  Returns the collected
id set (as a list up to membership) together with the number of HTTP
requests issued: scheme and host are vetted before any request. -/
def fetch_live_blacklist (url : UrlParts) (net : NetResult) : List Int × Nat :=
  if !url.present then ([], 0)
  else if url.scheme ≠ "https" then ([], 0)
  else if url.hostname.getD "" ≠ "docs.google.com" then ([], 0)
  else
    match net with
    | NetResult.err => ([], 1)
    | NetResult.ok rows =>
      (rows.foldr
        (fun row acc =>
          row.foldr
            (fun col acc2 =>
              let s := col.trim
              if pyIsDigit s then digitStrToInt s :: acc2 else acc2) acc) [],
       1)

/-- **C6.**  `fetch_live_blacklist` returns the empty set without issuing
any network request whenever the scheme is not `https` or the host is not
exactly `docs.google.com`; for accepted URLs any network or parse failure
also yields the empty set.  (The function is total: it never raises.) -/
theorem claim_C6_blacklist_loader_guard (url : UrlParts) (net : NetResult) :
    ((url.scheme ≠ "https" ∨ url.hostname.getD "" ≠ "docs.google.com") →
      fetch_live_blacklist url net = ([], 0))
    ∧ (fetch_live_blacklist url NetResult.err).1 = [] := by
  constructor
  · intro hbad
    unfold fetch_live_blacklist
    by_cases hp : (!url.present) = true
    · rw [if_pos hp]
    · rw [if_neg hp]
      by_cases hs : url.scheme ≠ "https"
      · rw [if_pos hs]
      · rw [if_neg hs]
        have hh : url.hostname.getD "" ≠ "docs.google.com" := by
          rcases hbad with hb | hb
          · exact absurd hb hs
          · exact hb
        rw [if_pos hh]
  · unfold fetch_live_blacklist
    by_cases hp : (!url.present) = true
    · rw [if_pos hp]
    · rw [if_neg hp]
      by_cases hs : url.scheme ≠ "https"
      · rw [if_pos hs]
      · rw [if_neg hs]
        by_cases hh : url.hostname.getD "" ≠ "docs.google.com"
        · rw [if_pos hh]
        · rw [if_neg hh]

theorem claim_C6_blacklist_loader_guard_witness :
    fetch_live_blacklist ⟨true, "https", some "evil.example.com", "/export"⟩
      (NetResult.ok [[ "123"], [ "456"]]) = ([], 0) :=
  (claim_C6_blacklist_loader_guard ⟨true, "https", some "evil.example.com", "/export"⟩
    (NetResult.ok [[ "123"], [ "456"]])).1 (Or.inr (by decide))
